import Mathlib

/-!
Shallow embedding of the felipeanexo/edsp-scrapper repository, together
with proofs settling the frozen claims about its specification.

Sources embedded:
- src/domain/entities.py (SchoolClassification, ProcessingStatus,
  SchoolData, ProcessingStats, BatchConfig)
- src/application/services.py (BatchProcessor.create_batches,
  BatchProcessor.merge_stats)
- src/application/scraper.py (EDSPScraper.process_school_data and the
  record loop of process_batch)
- src/infrastructure/storage.py (CSVStorage)
- src/infrastructure/browser.py (navigate_to_page_robust,
  process_page_parallel result handling)
-/

namespace EDSP

/-- Processing status for school data (entities.py, ProcessingStatus). -/
inductive ProcessingStatus where
  | SUCCESS
  | ERROR
  | SKIPPED
deriving DecidableEq, Repr

/-- School classification wrapper (entities.py, SchoolClassification): an
open string value; three canonical constants below. -/
structure SchoolClassification where
  value : String
deriving DecidableEq, Repr

def SchoolClassification.PEI : String := "PEI"

def SchoolClassification.EE : String := "EE"

def SchoolClassification.UNKNOWN : String := "UNKNOWN"

/-- Python str.upper restricted to the ASCII range (the classification
texts the claims exercise are ASCII); written over the character list
so it computes by structural recursion. -/
def pyUpper (s : String) : String := ⟨s.data.map Char.toUpper⟩

/-- Python str.strip: drop surrounding whitespace. -/
def pyStrip (s : String) : String :=
  ⟨((s.data.dropWhile Char.isWhitespace).reverse.dropWhile Char.isWhitespace).reverse⟩

/-- Split a character list on a separator character; the result always
has one more piece than there are separators, like Python str.split with
an explicit separator. -/
def splitOnChar (sep : Char) : List Char → List (List Char)
  | [] => [[]]
  | c :: rest =>
    match splitOnChar sep rest with
    | [] => [[]]
    | cur :: others =>
      if c = sep then [] :: cur :: others else (c :: cur) :: others

/-- SchoolClassification.from_text (entities.py lines 21-35).  The Python
parameter can also receive None, and `if not text` treats None and the
empty string alike, so the input is an Option. -/
def SchoolClassification.from_text (text : Option String) : SchoolClassification :=
  match text with
  | none => ⟨SchoolClassification.UNKNOWN⟩
  | some t =>
    if t = "" then ⟨SchoolClassification.UNKNOWN⟩
    else
      let t2 := pyUpper (pyStrip t)
      if t2 = "PEI" then ⟨SchoolClassification.PEI⟩
      else if t2 = "EE" then ⟨SchoolClassification.EE⟩
      else ⟨t2⟩

/-- Processing statistics entity (entities.py, ProcessingStats).  All
counters start at zero and are only ever incremented, so Nat is a
faithful model of the Python ints. -/
structure ProcessingStats where
  total_processed : Nat := 0
  successful : Nat := 0
  errors : Nat := 0
  skipped : Nat := 0
  pages_processed : Nat := 0
  total_pages : Nat := 0
  total_institutions : Nat := 0
deriving DecidableEq, Repr

/-- The freshly constructed ProcessingStats() with every field zero. -/
def initStats : ProcessingStats := {}

/-- ProcessingStats.success_rate (entities.py lines 139-144); the Python
float arithmetic is modelled by exact rationals. -/
def ProcessingStats.success_rate (s : ProcessingStats) : ℚ :=
  if s.total_processed = 0 then 0
  else ((s.successful : ℚ) / (s.total_processed : ℚ)) * 100

/-- ProcessingStats.update_success (entities.py lines 146-149). -/
def ProcessingStats.update_success (s : ProcessingStats) : ProcessingStats :=
  { s with total_processed := s.total_processed + 1, successful := s.successful + 1 }

/-- ProcessingStats.update_error (entities.py lines 151-154). -/
def ProcessingStats.update_error (s : ProcessingStats) : ProcessingStats :=
  { s with total_processed := s.total_processed + 1, errors := s.errors + 1 }

/-- ProcessingStats.update_skipped (entities.py lines 156-159). -/
def ProcessingStats.update_skipped (s : ProcessingStats) : ProcessingStats :=
  { s with total_processed := s.total_processed + 1, skipped := s.skipped + 1 }

/-- Batch processing configuration (entities.py, BatchConfig).  The two
delay fields are Python floats; their decimal literals are modelled by
exact rationals. -/
structure BatchConfig where
  start_page : Nat
  end_page : Nat
  batch_name : String
  max_concurrent : Nat := 2
  retry_attempts : Nat := 3
  delay_between_requests : ℚ := 2
  delay_between_pages : ℚ := 5
deriving DecidableEq, Repr

/-- Python f-string BATCH_{n:03d}: pad the decimal to width three
(wider numbers are printed in full). -/
def batchName (n : Nat) : String :=
  "BATCH_" ++ (if n < 10 then "00" else if n < 100 then "0" else "") ++ toString n

/-- Number of iterations of `for start_page in range(1, total_pages + 1,
batch_size)` for batch_size ≥ 1 (services.py line 141). -/
def batchCount (total_pages batch_size : Nat) : Nat :=
  (total_pages + batch_size - 1) / batch_size

/-- BatchProcessor.create_batches (services.py lines 134-165): the i-th
loop iteration has start_page = 1 + i * batch_size, end_page =
min(start_page + batch_size - 1, total_pages), name BATCH_{i+1:03d}.
Python range raises for batch_size = 0; the model is meaningful only for
batch_size ≥ 1, the domain the spec constrains. -/
def create_batches (total_pages batch_size : Nat) : List BatchConfig :=
  (List.range (batchCount total_pages batch_size)).map fun i =>
    { start_page := 1 + i * batch_size
      end_page := min (1 + i * batch_size + batch_size - 1) total_pages
      batch_name := batchName (i + 1)
      max_concurrent := 12
      retry_attempts := 3
      delay_between_requests := (0.4 : ℚ)
      delay_between_pages := (1.5 : ℚ) }

/-- BatchProcessor.merge_stats (services.py lines 167-173): adds exactly
five counters of the batch stats into the accumulator; total_pages and
total_institutions of the accumulator are left untouched. -/
def merge_stats (self batch : ProcessingStats) : ProcessingStats :=
  { self with
    total_processed := self.total_processed + batch.total_processed
    successful := self.successful + batch.successful
    errors := self.errors + batch.errors
    skipped := self.skipped + batch.skipped
    pages_processed := self.pages_processed + batch.pages_processed }

/-! Storage infrastructure (src/infrastructure/storage.py, CSVStorage).

The open Python file object is modelled by a handle recording the rows
written through it, whether close() has been called on it, and how many
forced flush+fsync sequences it has performed.  Calling flush() or
fileno() on a closed Python file raises ValueError with the message
recorded below, before any side effect happens. -/

/-- Model of the open file object held in CSVStorage._csv_file. -/
structure CSVFileHandle where
  lines : List String := []
  isClosed : Bool := false
  syncCount : Nat := 0
deriving DecidableEq, Repr

/-- Model of the CSVStorage object state: filename, the DictWriter
(present or not) and the file object.  After close() the Python code
leaves _csv_file pointing at the closed file object; nothing resets it
to None. -/
structure CSVStorage where
  filename : Option String := none
  csv_writer : Bool := false
  csv_file : Option CSVFileHandle := none
deriving DecidableEq, Repr

/-- The CSVStorage() constructor (storage.py lines 18-24). -/
def CSVStorage.mk0 : CSVStorage := {}

/-- The ValueError message Python raises for I/O on a closed file. -/
def closedFileError : String := "I/O operation on closed file."

/-- The RuntimeError message of write_school_data on an uninitialized
storage (storage.py line 79). -/
def notInitializedError : String :=
  "CSV file not initialized. Call initialize_csv() first."

/-- The header schema of storage.py lines 36-65. -/
def fieldnames : List String :=
  ["school_name", "classification", "detail_url", "extraction_timestamp",
   "status", "teaching_directorate", "neighborhood", "municipality",
   "phone", "email", "ideb_score_final_years", "idesp_score_final_years",
   "ideb_score_high_school", "idesp_score_high_school", "total_students",
   "age_06_10_final_years", "age_11_14_final_years", "age_15_17_final_years",
   "age_18_plus_final_years", "age_06_10_high_school", "age_11_14_high_school",
   "age_15_17_high_school", "age_18_plus_high_school", "total_classes",
   "classes_final_years", "classes_high_school", "total_classrooms",
   "error_message"]

/-- The header row as written by DictWriter.writeheader. -/
def headerLine : String := String.intercalate "," fieldnames

/-- CSVStorage.initialize_csv (storage.py lines 26-74), named init_csv
here.  A None filename is replaced by a timestamped default; the wall
clock reading is passed in explicitly.  Returns the path string and the
new storage state. -/
def CSVStorage.init_csv (s : CSVStorage) (filename : Option String)
    (timestamp : String) : String × CSVStorage :=
  let name := match filename with
    | some n => n
    | none => "edsp_schools_" ++ timestamp ++ ".csv"
  let path := "results/" ++ name
  (path,
    { s with
      filename := some path
      csv_file := some { lines := [headerLine], isClosed := false, syncCount := 0 }
      csv_writer := true })

/-- CSVStorage.write_school_data (storage.py lines 76-89): raises
RuntimeError when the writer was never created; otherwise appends one
serialized row through the file object.  The first component is the
raised exception message, if any; on an exception the state is the
unchanged input. -/
def CSVStorage.write_school_data (s : CSVStorage) (row : String) :
    Option String × CSVStorage :=
  if s.csv_writer = false then
    (some notInitializedError, s)
  else
    match s.csv_file with
    | none => (some notInitializedError, s)
    | some f =>
      if f.isClosed then (some closedFileError, s)
      else (none, { s with csv_file := some { f with lines := f.lines ++ [row] } })

/-- CSVStorage.close (storage.py lines 107-119): when _csv_file is set it
runs flush(), fsync(fileno()), close().  On an already closed file the
initial flush() raises ValueError before any sync side effect; the
_csv_file attribute is never reset, so the closed handle is retained. -/
def CSVStorage.close (s : CSVStorage) : Option String × CSVStorage :=
  match s.csv_file with
  | none => (none, s)
  | some f =>
    if f.isClosed then (some closedFileError, s)
    else
      let f2 : CSVFileHandle :=
        { f with isClosed := true, syncCount := f.syncCount + 1 }
      (none, { s with csv_file := some f2 })

/-! File integrity checking (storage.py lines 154-204).  These methods
re-open the artifact from the filesystem; the filesystem is passed in as
the optional file content (None when the file does not exist). -/

/-- Lines seen when iterating an open text file in Python: splitting the
content on newline yields a trailing empty piece exactly when the
content ends in a newline, and that piece is not a line. -/
def fileLines (c : String) : List String :=
  let parts := (splitOnChar (Char.ofNat 10) c.data).map fun l => String.mk l
  if parts.getLast? = some "" then parts.dropLast else parts

/-- The row csv.reader produces for one physical line: an empty line
gives the empty row []; the claims exercise no quoted fields, so a row
is the comma-split of the line. -/
def csvRow (l : String) : List String :=
  if l = "" then [] else (splitOnChar (Char.ofNat 44) l.data).map fun p => String.mk p

/-- The result of next(reader, None) on the re-opened file. -/
def csvHeader (c : String) : Option (List String) :=
  (fileLines c).head?.map csvRow

/-- CSVStorage.verify_file_integrity (storage.py lines 154-186) as a
function of the stored filename and the file content on disk. -/
def verify_file_integrity (filename : Option String)
    (content : Option String) : Bool :=
  match filename with
  | none => false
  | some _ =>
    match content with
    | none => false
    | some c =>
      if pyStrip c = "" then false
      else
        match csvHeader c with
        | none => false
        | some header => if header = [] then false else true

/-- CSVStorage.get_partial_data_count (storage.py lines 188-204), named
data_row_count here: skip the header line, count the remaining rows;
zero when the file is missing or was never named. -/
def data_row_count (filename : Option String) (content : Option String) : Nat :=
  match filename with
  | none => 0
  | some _ =>
    match content with
    | none => 0
    | some c => (fileLines c).tail.length

/-! Robust sequential navigation (src/infrastructure/browser.py,
BrowserManager.navigate_to_page_robust, lines 126-232).

One iteration of the for-loop interacts with the page; its observable
outcome is one of four cases, fixed by the environment: the next button
is absent (every selector failed), the click raised, the click landed
but the re-rendered table never appeared (no increment), or the advance
was verified (increment).  The environment is an infinite schedule of
such outcomes indexed by attempt number. -/

/-- Outcome of one loop iteration of navigate_to_page_robust. -/
inductive NavStep where
  | noButton
  | clickError
  | verifyFail
  | advanced
deriving DecidableEq, Repr

/-- The for-loop of navigate_to_page_robust (browser.py lines 146-217):
fuel is the number of remaining iterations, attempt the index into the
schedule, current the page counter that starts at 1.  noButton and
clickError break out of the loop and reach the final `return False`;
verifyFail burns an attempt without incrementing; advanced increments
current. -/
def navLoop (steps : Nat → NavStep) : Nat → Nat → Nat → Nat → Bool
  | 0, _, _, _ => false
  | fuel + 1, attempt, current, target =>
    if target ≤ current then true
    else
      match steps attempt with
      | NavStep.noButton => false
      | NavStep.clickError => false
      | NavStep.verifyFail => navLoop steps fuel (attempt + 1) current target
      | NavStep.advanced => navLoop steps fuel (attempt + 1) (current + 1) target

/-- Number of verified advances in the schedule window of length k that
starts at the given attempt index. -/
def advCount (steps : Nat → NavStep) (attempt : Nat) : Nat → Nat
  | 0 => 0
  | k + 1 =>
    (if steps attempt = NavStep.advanced then 1 else 0) + advCount steps (attempt + 1) k

/-- BrowserManager.navigate_to_page_robust: target 1 only negotiates the
page size and returns True; target > 1 runs the loop with max_attempts
= target + 5 starting from current_page = 1; any other target falls
through to the trailing `return True`. -/
def navigate_to_page_robust (target : Nat) (steps : Nat → NavStep) : Bool :=
  if target = 1 then true
  else if 1 < target then navLoop steps (target + 5) 0 1 target
  else true

/-! Per-reference record pipeline.

BrowserManager.process_page_parallel (browser.py lines 940-1036) gathers
one task per extracted school link with return_exceptions=True.  Each
settled task is either a dict of raw fields or the exception that
escaped the retry loop of extract_school_details; dict results are
appended to page_results, exception results are logged and nothing else
(browser.py lines 1011-1017).  EDSPScraper.process_batch (scraper.py
lines 159-168) then turns each raw dict into a SchoolData record via
process_school_data and persists it. -/

/-- Raw school dict returned by extract_school_details.  The three keys
read with raw_data[...] are Options (a missing key raises KeyError);
the keys read with raw_data.get(key, "") always yield a string. -/
structure RawSchool where
  name : Option String := none
  classification : Option String := none
  detail_url : Option String := none
  teaching_directorate : String := ""
  neighborhood : String := ""
  municipality : String := ""
  phone : String := ""
  email : String := ""
  ideb_score_final_years : String := ""
  idesp_score_final_years : String := ""
  ideb_score_high_school : String := ""
  idesp_score_high_school : String := ""
  total_students : String := ""
  age_06_10_final_years : String := ""
  age_11_14_final_years : String := ""
  age_15_17_final_years : String := ""
  age_18_plus_final_years : String := ""
  age_06_10_high_school : String := ""
  age_11_14_high_school : String := ""
  age_15_17_high_school : String := ""
  age_18_plus_high_school : String := ""
  total_classes : String := ""
  classes_final_years : String := ""
  classes_high_school : String := ""
  total_classrooms : String := ""
deriving DecidableEq, Repr

/-- School data entity (entities.py, SchoolData).  The wall-clock
extraction_timestamp is omitted: no claim depends on it. -/
structure SchoolData where
  name : String
  classification : SchoolClassification
  detail_url : String
  status : ProcessingStatus
  teaching_directorate : String := ""
  neighborhood : String := ""
  municipality : String := ""
  phone : String := ""
  email : String := ""
  ideb_score_final_years : String := ""
  idesp_score_final_years : String := ""
  ideb_score_high_school : String := ""
  idesp_score_high_school : String := ""
  total_students : String := ""
  age_06_10_final_years : String := ""
  age_11_14_final_years : String := ""
  age_15_17_final_years : String := ""
  age_18_plus_final_years : String := ""
  age_06_10_high_school : String := ""
  age_11_14_high_school : String := ""
  age_15_17_high_school : String := ""
  age_18_plus_high_school : String := ""
  total_classes : String := ""
  classes_final_years : String := ""
  classes_high_school : String := ""
  total_classrooms : String := ""
  error_message : Option String := none
deriving DecidableEq, Repr

/-- Does the raw dict carry the three keys read by direct indexing?
Python evaluates raw_data["classification"] first (scraper.py line 77),
then the keyword arguments name and detail_url in source order. -/
def RawSchool.wellFormed (raw : RawSchool) : Bool :=
  raw.classification.isSome && raw.name.isSome && raw.detail_url.isSome

/-- EDSPScraper.process_school_data (scraper.py lines 72-125): on a
well-formed dict it builds a SUCCESS record and bumps the success
counter; a KeyError from a missing required key is caught and converted
to an ERROR record carrying the url (via .get) and the error text, with
the error counter bumped.  The Python return type is Optional but no
branch returns None. -/
def process_school_data (raw : RawSchool) (stats : ProcessingStats) :
    SchoolData × ProcessingStats :=
  match raw.classification with
  | none =>
    ({ name := "", classification := ⟨SchoolClassification.UNKNOWN⟩,
       detail_url := raw.detail_url.getD "",
       status := ProcessingStatus.ERROR,
       error_message := some "KeyError: classification" },
     stats.update_error)
  | some classText =>
    match raw.name with
    | none =>
      ({ name := "", classification := ⟨SchoolClassification.UNKNOWN⟩,
         detail_url := raw.detail_url.getD "",
         status := ProcessingStatus.ERROR,
         error_message := some "KeyError: name" },
       stats.update_error)
    | some nm =>
      match raw.detail_url with
      | none =>
        ({ name := "", classification := ⟨SchoolClassification.UNKNOWN⟩,
           detail_url := "",
           status := ProcessingStatus.ERROR,
           error_message := some "KeyError: detail_url" },
         stats.update_error)
      | some url =>
        ({ name := nm,
           classification := SchoolClassification.from_text (some classText),
           detail_url := url,
           status := ProcessingStatus.SUCCESS,
           teaching_directorate := raw.teaching_directorate,
           neighborhood := raw.neighborhood,
           municipality := raw.municipality,
           phone := raw.phone,
           email := raw.email,
           ideb_score_final_years := raw.ideb_score_final_years,
           idesp_score_final_years := raw.idesp_score_final_years,
           ideb_score_high_school := raw.ideb_score_high_school,
           idesp_score_high_school := raw.idesp_score_high_school,
           total_students := raw.total_students,
           age_06_10_final_years := raw.age_06_10_final_years,
           age_11_14_final_years := raw.age_11_14_final_years,
           age_15_17_final_years := raw.age_15_17_final_years,
           age_18_plus_final_years := raw.age_18_plus_final_years,
           age_06_10_high_school := raw.age_06_10_high_school,
           age_11_14_high_school := raw.age_11_14_high_school,
           age_15_17_high_school := raw.age_15_17_high_school,
           age_18_plus_high_school := raw.age_18_plus_high_school,
           total_classes := raw.total_classes,
           classes_final_years := raw.classes_final_years,
           classes_high_school := raw.classes_high_school,
           total_classrooms := raw.total_classrooms,
           error_message := none },
         stats.update_success)

/-- A settled task from asyncio.gather(..., return_exceptions=True) over
the per-reference detail fetch tasks: either the raw dict, or the
exception raised after extract_school_details exhausted its retries. -/
inductive FetchResult where
  | ok (raw : RawSchool)
  | exn (err : String)
deriving DecidableEq, Repr

/-- Is the settled task a dict result? -/
def FetchResult.isOk : FetchResult → Bool
  | FetchResult.ok _ => true
  | FetchResult.exn _ => false

/-- The result loop of process_page_parallel (browser.py lines
1011-1017): dict results are appended to page_results; exception
results are logged with a warning and produce nothing. -/
def process_page_parallel (results : List FetchResult) : List RawSchool :=
  results.filterMap fun r =>
    match r with
    | FetchResult.ok raw => some raw
    | FetchResult.exn _ => none

/-- The record loop of EDSPScraper.process_batch (scraper.py lines
159-168): each raw dict from a page result list is converted by
process_school_data, collected, and persisted; the stats thread through
the calls. -/
def process_batch_records (raws : List RawSchool) (stats : ProcessingStats) :
    List SchoolData × ProcessingStats :=
  match raws with
  | [] => ([], stats)
  | raw :: rest =>
    let rs := process_school_data raw stats
    let rest2 := process_batch_records rest rs.2
    (rs.1 :: rest2.1, rest2.2)

/-! Per-record outcome sequences.  The three update methods of
ProcessingStats are the only writers of the outcome counters; a run is a
sequence of such updates applied to a freshly zeroed stats value. -/

/-- One per-record outcome, selecting which update method runs. -/
inductive Outcome where
  | success
  | error
  | skipped
deriving DecidableEq, Repr

/-- Dispatch one outcome to the matching ProcessingStats update method. -/
def applyOutcome (o : Outcome) (s : ProcessingStats) : ProcessingStats :=
  match o with
  | Outcome.success => s.update_success
  | Outcome.error => s.update_error
  | Outcome.skipped => s.update_skipped

/-- Apply a whole sequence of per-record outcomes in order. -/
def applyOutcomes (outs : List Outcome) (s : ProcessingStats) : ProcessingStats :=
  outs.foldl (fun t o => applyOutcome o t) s

/-- The accounting invariant of the spec: the total equals the sum of
the three outcome counters. -/
def statsInv (s : ProcessingStats) : Prop :=
  s.total_processed = s.successful + s.errors + s.skipped

/-- Field-wise order on stats: every counter of the first is at most the
matching counter of the second. -/
def statsLE (a b : ProcessingStats) : Prop :=
  a.total_processed ≤ b.total_processed
  ∧ a.successful ≤ b.successful
  ∧ a.errors ≤ b.errors
  ∧ a.skipped ≤ b.skipped
  ∧ a.pages_processed ≤ b.pages_processed
  ∧ a.total_pages ≤ b.total_pages
  ∧ a.total_institutions ≤ b.total_institutions

/-- The five counters merge_stats accumulates, as one tuple. -/
def counters (s : ProcessingStats) : Nat × Nat × Nat × Nat × Nat :=
  (s.total_processed, s.successful, s.errors, s.skipped, s.pages_processed)

/-! Theorems.  Helper lemmas come first; each claim is settled by one
named theorem (with a counterexample or witness theorem where needed). -/

lemma statsLE_refl (s : ProcessingStats) : statsLE s s := by
  unfold statsLE; omega

lemma statsLE_trans {a b c : ProcessingStats} (h1 : statsLE a b) (h2 : statsLE b c) :
    statsLE a c := by
  unfold statsLE at h1 h2 ⊢; omega

lemma statsLE_applyOutcome (o : Outcome) (s : ProcessingStats) :
    statsLE s (applyOutcome o s) := by
  cases o <;>
    simp [applyOutcome, statsLE, ProcessingStats.update_success,
      ProcessingStats.update_error, ProcessingStats.update_skipped]

lemma statsLE_applyOutcomes (outs : List Outcome) (s : ProcessingStats) :
    statsLE s (applyOutcomes outs s) := by
  induction outs generalizing s with
  | nil => exact statsLE_refl s
  | cons o rest ih =>
    exact statsLE_trans (statsLE_applyOutcome o s) (ih (applyOutcome o s))

lemma statsInv_applyOutcome (o : Outcome) (s : ProcessingStats)
    (h : statsInv s) : statsInv (applyOutcome o s) := by
  cases o <;>
    simp [applyOutcome, statsInv, ProcessingStats.update_success,
      ProcessingStats.update_error, ProcessingStats.update_skipped] at h ⊢ <;>
    omega

lemma statsInv_applyOutcomes (outs : List Outcome) (s : ProcessingStats)
    (h : statsInv s) : statsInv (applyOutcomes outs s) := by
  induction outs generalizing s with
  | nil => exact h
  | cons o rest ih => exact ih (applyOutcome o s) (statsInv_applyOutcome o s h)

/-- C6: for every sequence of per-record outcome updates applied to the
zeroed stats, total_processed = successful + errors + skipped holds
after every update; each update adds one to the total and one to exactly
one outcome counter, and every counter is monotonically non-decreasing
across a run. -/
theorem claim_C6_stats_accounting :
    (∀ outs : List Outcome, statsInv (applyOutcomes outs initStats))
    ∧ (∀ (o : Outcome) (s : ProcessingStats),
        (applyOutcome o s).total_processed = s.total_processed + 1
        ∧ (((applyOutcome o s).successful = s.successful + 1
              ∧ (applyOutcome o s).errors = s.errors
              ∧ (applyOutcome o s).skipped = s.skipped)
           ∨ ((applyOutcome o s).successful = s.successful
              ∧ (applyOutcome o s).errors = s.errors + 1
              ∧ (applyOutcome o s).skipped = s.skipped)
           ∨ ((applyOutcome o s).successful = s.successful
              ∧ (applyOutcome o s).errors = s.errors
              ∧ (applyOutcome o s).skipped = s.skipped + 1)))
    ∧ (∀ (s : ProcessingStats) (outs : List Outcome), statsLE s (applyOutcomes outs s)) := by
  refine ⟨fun outs => statsInv_applyOutcomes outs initStats (by simp [statsInv, initStats]),
    fun o s => ?_, fun s outs => statsLE_applyOutcomes outs s⟩
  cases o <;>
    simp [applyOutcome, ProcessingStats.update_success,
      ProcessingStats.update_error, ProcessingStats.update_skipped]

lemma merge_stats_left_comm (a x y : ProcessingStats) :
    merge_stats (merge_stats a x) y = merge_stats (merge_stats a y) x := by
  cases a; cases x; cases y
  simp [merge_stats]
  omega

lemma merge_stats_foldl_perm {l l2 : List ProcessingStats} (h : l.Perm l2) :
    ∀ acc : ProcessingStats, l.foldl merge_stats acc = l2.foldl merge_stats acc := by
  induction h with
  | nil => intro acc; rfl
  | cons x _ ih => intro acc; simp only [List.foldl_cons]; exact ih (merge_stats acc x)
  | swap x y rest =>
    intro acc
    simp only [List.foldl_cons]
    rw [merge_stats_left_comm]
  | trans _ _ ih1 ih2 => intro acc; rw [ih1 acc, ih2 acc]

/-- C7 counterexample: merge_stats is not commutative as an operation on
full stats values, because the result keeps the first argument's
total_pages and total_institutions fields. -/
theorem claim_C7_counterexample :
    merge_stats { total_pages := 1 } { total_pages := 2 }
      ≠ merge_stats { total_pages := 2 } { total_pages := 1 } := by
  decide

/-- C7 amended: merge_stats adds exactly the five counters field-wise
into the accumulator and leaves its total_pages and total_institutions
untouched; it is associative, commutative in the five accumulated
counters, and folding batch stats into an accumulator in any order
yields identical totals. -/
theorem claim_C7_merge_stats :
    (∀ a b : ProcessingStats,
        (merge_stats a b).total_processed = a.total_processed + b.total_processed
        ∧ (merge_stats a b).successful = a.successful + b.successful
        ∧ (merge_stats a b).errors = a.errors + b.errors
        ∧ (merge_stats a b).skipped = a.skipped + b.skipped
        ∧ (merge_stats a b).pages_processed = a.pages_processed + b.pages_processed
        ∧ (merge_stats a b).total_pages = a.total_pages
        ∧ (merge_stats a b).total_institutions = a.total_institutions)
    ∧ (∀ a b c : ProcessingStats,
        merge_stats (merge_stats a b) c = merge_stats a (merge_stats b c))
    ∧ (∀ a b : ProcessingStats, counters (merge_stats a b) = counters (merge_stats b a))
    ∧ (∀ (acc : ProcessingStats) (l l2 : List ProcessingStats), l.Perm l2 →
        l.foldl merge_stats acc = l2.foldl merge_stats acc) := by
  refine ⟨fun a b => ⟨rfl, rfl, rfl, rfl, rfl, rfl, rfl⟩, fun a b c => ?_,
    fun a b => ?_, fun acc l l2 h => merge_stats_foldl_perm h acc⟩
  · cases a; cases b; cases c
    simp [merge_stats]
    omega
  · simp [counters, merge_stats]
    omega

/-- C7 witness: folding two concrete batch stats into an accumulator in
either order gives the same totals. -/
theorem claim_C7_witness :
    [({ total_processed := 3, successful := 2, errors := 1 } : ProcessingStats),
     { total_processed := 5, successful := 5, pages_processed := 2 }].foldl
        merge_stats initStats
      = [({ total_processed := 5, successful := 5, pages_processed := 2 } : ProcessingStats),
         { total_processed := 3, successful := 2, errors := 1 }].foldl
            merge_stats initStats :=
  claim_C7_merge_stats.2.2.2 initStats _ _
    (List.Perm.swap _ _ _)

/-- C8: success_rate is recomputed from the current totals on each read;
it equals successful / total_processed * 100 when total_processed is
nonzero and is 0 when total_processed = 0, the division being guarded by
that test. -/
theorem claim_C8_success_rate :
    ∀ s : ProcessingStats,
      (s.total_processed = 0 → s.success_rate = 0)
      ∧ (s.total_processed ≠ 0 →
          s.success_rate = ((s.successful : ℚ) / (s.total_processed : ℚ)) * 100) := by
  intro s
  constructor <;> intro h <;> simp [ProcessingStats.success_rate, h]

/-- C8 witness: the guarded branch at zero totals and the division
branch at 3 successes out of 4. -/
theorem claim_C8_success_rate_witness :
    ProcessingStats.success_rate initStats = 0
    ∧ ProcessingStats.success_rate { total_processed := 4, successful := 3 } = 75 := by
  constructor
  · exact (claim_C8_success_rate initStats).1 rfl
  · have h := (claim_C8_success_rate { total_processed := 4, successful := 3 }).2
      (by norm_num)
    rw [h]
    norm_num

/-- C10: appending a record to a storage whose writer was never created
raises RuntimeError with the not-initialized message and returns the
state unchanged; nothing is ever written silently. -/
theorem claim_C10_write_uninitialized :
    ∀ (s : CSVStorage) (row : String), s.csv_writer = false →
      s.write_school_data row = (some notInitializedError, s) := by
  intro s row h
  simp [CSVStorage.write_school_data, h]

/-- C10 witness: the freshly constructed storage rejects a write and is
left unchanged. -/
theorem claim_C10_write_uninitialized_witness :
    CSVStorage.mk0.write_school_data "row" = (some notInitializedError, CSVStorage.mk0) :=
  claim_C10_write_uninitialized CSVStorage.mk0 "row" rfl

/-- C2: evaluation of SchoolClassification.from_text at the failing
input.  The canonical cases behave as claimed (PEI and ee in any case,
empty or missing text to UNKNOWN), but other non-empty text is stored
stripped and uppercased, not verbatim, contradicting the claim and the
docstring of from_text itself. -/
theorem claim_C2_from_text_eval :
    SchoolClassification.from_text (some "Colegio Estadual") = ⟨"COLEGIO ESTADUAL"⟩
    ∧ SchoolClassification.from_text (some "Colegio Estadual") ≠ ⟨"Colegio Estadual"⟩
    ∧ SchoolClassification.from_text (some " pei ") = ⟨"PEI"⟩
    ∧ SchoolClassification.from_text (some "PEI") = ⟨"PEI"⟩
    ∧ SchoolClassification.from_text (some "ee") = ⟨"EE"⟩
    ∧ SchoolClassification.from_text (some "EE") = ⟨"EE"⟩
    ∧ SchoolClassification.from_text (some "") = ⟨"UNKNOWN"⟩
    ∧ SchoolClassification.from_text none = ⟨"UNKNOWN"⟩ := by
  decide

/-- C4 counterexample: initialize the storage, close it once
successfully, and the second close raises the closed-file ValueError
instead of being a no-op, because close() never clears _csv_file. -/
theorem claim_C4_counterexample :
    ((CSVStorage.mk0.init_csv (some "edsp.csv") "20260101_000000").2.close.1 = none)
    ∧ (((CSVStorage.mk0.init_csv (some "edsp.csv") "20260101_000000").2.close.2).close.1
        = some closedFileError) := by
  constructor <;> rfl

/-- C4 amended: close() on a storage whose file was never opened is a
no-op, and a first close on an open file succeeds and performs its one
final sync; but the closed handle is retained in _csv_file, so a second
close() raises the closed-file ValueError (leaving the state, in
particular the sync count, unchanged) rather than being a no-op. -/
theorem claim_C4_close_once :
    ∀ s : CSVStorage,
      (s.csv_file = none → s.close = (none, s))
      ∧ (∀ f : CSVFileHandle, s.csv_file = some f → f.isClosed = false →
          ∃ f2 : CSVFileHandle,
            s.close = (none, { s with csv_file := some f2 })
            ∧ f2.lines = f.lines
            ∧ f2.isClosed = true
            ∧ f2.syncCount = f.syncCount + 1
            ∧ s.close.2.close = (some closedFileError, s.close.2)) := by
  intro s
  constructor
  · intro h
    simp [CSVStorage.close, h]
  · intro f hf hopen
    refine ⟨{ f with isClosed := true, syncCount := f.syncCount + 1 }, ?_, rfl, rfl, rfl, ?_⟩
    · simp [CSVStorage.close, hf, hopen]
    · simp [CSVStorage.close, hf, hopen]

/-- C4 witness: the two branches of the amended statement evaluated on
the never-opened storage and on a concretely initialized one. -/
theorem claim_C4_close_once_witness :
    (CSVStorage.mk0.close = (none, CSVStorage.mk0))
    ∧ ∃ f2 : CSVFileHandle,
        ({ filename := some "results/f.csv", csv_writer := true,
           csv_file := some { lines := [headerLine], isClosed := false, syncCount := 0 } }
            : CSVStorage).close
          = (none,
              { filename := some "results/f.csv", csv_writer := true,
                csv_file := some f2 })
        ∧ f2.lines = [headerLine]
        ∧ f2.isClosed = true
        ∧ f2.syncCount = 0 + 1
        ∧ ({ filename := some "results/f.csv", csv_writer := true,
             csv_file := some { lines := [headerLine], isClosed := false, syncCount := 0 } }
              : CSVStorage).close.2.close
            = (some closedFileError,
               ({ filename := some "results/f.csv", csv_writer := true,
                  csv_file := some { lines := [headerLine], isClosed := false, syncCount := 0 } }
                   : CSVStorage).close.2) := by
  exact ⟨(claim_C4_close_once CSVStorage.mk0).1 rfl,
    (claim_C4_close_once _).2 { lines := [headerLine], isClosed := false, syncCount := 0 }
      rfl rfl⟩

lemma verify_some_some (fn c : String) :
    verify_file_integrity (some fn) (some c) = false ↔
      (pyStrip c = "" ∨ csvHeader c = none ∨ csvHeader c = some []) := by
  unfold verify_file_integrity
  by_cases h1 : pyStrip c = ""
  · simp [h1]
  · cases h2 : csvHeader c with
    | none => simp [h1, h2]
    | some header =>
      by_cases h3 : header = []
      · simp [h1, h2, h3]
      · simp [h1, h2, h3]

/-- C5: verify_file_integrity returns false exactly when the artifact is
missing (no filename or no file on disk), its content strips to empty,
or the first csv row is absent or empty; a file holding the header row
and zero data rows verifies true while the persisted-record count is
zero. -/
theorem claim_C5_verify_integrity :
    (∀ ct : Option String, verify_file_integrity none ct = false)
    ∧ (∀ fn : String, verify_file_integrity (some fn) none = false)
    ∧ (∀ (fn : String) (c : String),
        verify_file_integrity (some fn) (some c) = false ↔
          (pyStrip c = "" ∨ csvHeader c = none ∨ csvHeader c = some []))
    ∧ (verify_file_integrity (some "results/edsp.csv") (some (headerLine ++ "\n")) = true
       ∧ data_row_count (some "results/edsp.csv") (some (headerLine ++ "\n")) = 0) := by
  refine ⟨fun ct => rfl, fun fn => rfl, fun fn c => verify_some_some fn c, ?_, ?_⟩
  · set_option maxRecDepth 4000 in decide
  · set_option maxRecDepth 4000 in decide

lemma navLoop_true_of_reached (steps : Nat → NavStep) (fuel attempt current target : Nat)
    (hreach : target ≤ current) (hfuel : 0 < fuel) :
    navLoop steps fuel attempt current target = true := by
  cases fuel with
  | zero => omega
  | succ f => simp [navLoop, hreach]

lemma navLoop_congr (steps steps2 : Nat → NavStep) :
    ∀ (fuel attempt current target : Nat),
      (∀ i, i < fuel → steps (attempt + i) = steps2 (attempt + i)) →
      navLoop steps fuel attempt current target
        = navLoop steps2 fuel attempt current target := by
  intro fuel
  induction fuel with
  | zero => intro attempt current target _; rfl
  | succ f ih =>
    intro attempt current target h
    by_cases hreach : target ≤ current
    · simp [navLoop, hreach]
    · have h0 : steps attempt = steps2 attempt := by
        have := h 0 (Nat.succ_pos f)
        simpa using this
      have hrec : ∀ i, i < f → steps (attempt + 1 + i) = steps2 (attempt + 1 + i) := by
        intro i hi
        have := h (i + 1) (by omega)
        have harith : attempt + (i + 1) = attempt + 1 + i := by omega
        rwa [harith] at this
      simp only [navLoop, hreach, if_neg hreach, h0]
      cases steps2 attempt with
      | noButton => rfl
      | clickError => rfl
      | verifyFail => exact ih (attempt + 1) current target hrec
      | advanced => exact ih (attempt + 1) (current + 1) target hrec

lemma navLoop_all_advanced (steps : Nat → NavStep) (hsteps : ∀ i, steps i = NavStep.advanced) :
    ∀ (fuel attempt current target : Nat), target < current + fuel → 0 < fuel →
      navLoop steps fuel attempt current target = true := by
  intro fuel
  induction fuel with
  | zero => intro attempt current target _ hfuel; omega
  | succ f ih =>
    intro attempt current target h _
    by_cases hreach : target ≤ current
    · simp [navLoop, hreach]
    · have hf : 0 < f := by omega
      simp only [navLoop, if_neg hreach, hsteps attempt]
      exact ih (attempt + 1) (current + 1) target (by omega) hf

lemma advCount_zero (steps : Nat → NavStep) (attempt : Nat) :
    advCount steps attempt 0 = 0 := rfl

lemma advCount_succ (steps : Nat → NavStep) (attempt k : Nat) :
    advCount steps attempt (k + 1)
      = (if steps attempt = NavStep.advanced then 1 else 0)
        + advCount steps (attempt + 1) k := rfl

lemma navLoop_abort (steps : Nat → NavStep) :
    ∀ (k fuel attempt current target : Nat),
      (∀ i, i < k →
        (steps (attempt + i) = NavStep.verifyFail ∨ steps (attempt + i) = NavStep.advanced)) →
      (steps (attempt + k) = NavStep.noButton ∨ steps (attempt + k) = NavStep.clickError) →
      current + advCount steps attempt k < target →
      k < fuel →
      navLoop steps fuel attempt current target = false := by
  intro k
  induction k with
  | zero =>
    intro fuel attempt current target _ habort hlt hfuel
    rw [Nat.add_zero] at habort
    cases fuel with
    | zero => omega
    | succ f =>
      have hcur : ¬ target ≤ current := by
        rw [advCount_zero] at hlt
        omega
      rcases habort with h | h <;> simp [navLoop, hcur, h]
  | succ k ih =>
    intro fuel attempt current target hwin habort hlt hfuel
    cases fuel with
    | zero => omega
    | succ f =>
      have hcur : ¬ target ≤ current := by
        have h0 : 0 ≤ advCount steps attempt (k + 1) := Nat.zero_le _
        omega
      have h0 := hwin 0 (Nat.succ_pos k)
      rw [Nat.add_zero] at h0
      have hwin2 : ∀ i, i < k →
          (steps (attempt + 1 + i) = NavStep.verifyFail
            ∨ steps (attempt + 1 + i) = NavStep.advanced) := by
        intro i hi
        have h := hwin (i + 1) (by omega)
        rwa [show attempt + (i + 1) = attempt + 1 + i by omega] at h
      have habort2 : steps (attempt + 1 + k) = NavStep.noButton
          ∨ steps (attempt + 1 + k) = NavStep.clickError := by
        rwa [show attempt + (k + 1) = attempt + 1 + k by omega] at habort
      rcases h0 with hvf | hadvd
      · simp only [navLoop, if_neg hcur, hvf]
        have hlt2 : current + advCount steps (attempt + 1) k < target := by
          rw [advCount_succ, hvf] at hlt
          simpa using hlt
        exact ih f (attempt + 1) current target hwin2 habort2 hlt2 (by omega)
      · simp only [navLoop, if_neg hcur, hadvd]
        have hlt2 : current + 1 + advCount steps (attempt + 1) k < target := by
          rw [advCount_succ, hadvd] at hlt
          simp at hlt
          omega
        exact ih f (attempt + 1) (current + 1) target hwin2 habort2 hlt2 (by omega)

lemma navLoop_succ (steps : Nat → NavStep) (f attempt current target : Nat) :
    navLoop steps (f + 1) attempt current target
      = if target ≤ current then true
        else
          match steps attempt with
          | NavStep.noButton => false
          | NavStep.clickError => false
          | NavStep.verifyFail => navLoop steps f (attempt + 1) current target
          | NavStep.advanced => navLoop steps f (attempt + 1) (current + 1) target := rfl

lemma advCount_tail_le (steps : Nat → NavStep) (attempt f : Nat) :
    advCount steps (attempt + 1) (f - 1) ≤ advCount steps attempt f := by
  cases f with
  | zero => exact Nat.le_refl 0
  | succ g =>
    rw [advCount_succ]
    exact Nat.le_add_left _ _

lemma navLoop_exhaust (steps : Nat → NavStep) :
    ∀ (fuel attempt current target : Nat),
      (∀ i, i < fuel →
        (steps (attempt + i) = NavStep.verifyFail ∨ steps (attempt + i) = NavStep.advanced)) →
      current + advCount steps attempt (fuel - 1) < target →
      navLoop steps fuel attempt current target = false := by
  intro fuel
  induction fuel with
  | zero => intro attempt current target _ _; rfl
  | succ f ih =>
    intro attempt current target hwin hlt
    simp only [Nat.succ_sub_one] at hlt
    have hcur : ¬ target ≤ current := by
      have h0 : 0 ≤ advCount steps attempt f := Nat.zero_le _
      omega
    have h0 := hwin 0 (Nat.succ_pos f)
    rw [Nat.add_zero] at h0
    have hwin2 : ∀ i, i < f →
        (steps (attempt + 1 + i) = NavStep.verifyFail
          ∨ steps (attempt + 1 + i) = NavStep.advanced) := by
      intro i hi
      have h := hwin (i + 1) (by omega)
      rwa [show attempt + (i + 1) = attempt + 1 + i by omega] at h
    rcases h0 with hvf | hadvd
    · rw [navLoop_succ, if_neg hcur, hvf]
      show navLoop steps f (attempt + 1) current target = false
      refine ih (attempt + 1) current target hwin2 ?_
      have hle := advCount_tail_le steps attempt f
      omega
    · rw [navLoop_succ, if_neg hcur, hadvd]
      show navLoop steps f (attempt + 1) (current + 1) target = false
      cases f with
      | zero => rfl
      | succ g =>
        refine ih (attempt + 1) (current + 1) target hwin2 ?_
        simp only [Nat.succ_sub_one]
        rw [advCount_succ, hadvd] at hlt
        simp at hlt
        omega

/-- C9: navigate_to_page_robust returns success immediately for target
page 1; for target > 1 the result is fixed by the first target + 5
schedule entries (the attempt budget); a schedule of verified advances
reaches the target and returns true; the loop answers true the moment
the current page reaches the target; it returns false when the advance
control disappears or the click errors at any attempt reached while the
verified advances so far keep the current page short of the target, and
also when the whole attempt budget passes without enough verified
advances, so it never loops forever. -/
theorem claim_C9_navigate_robust :
    ∀ (target : Nat) (steps steps2 : Nat → NavStep),
      (target = 1 → navigate_to_page_robust target steps = true)
      ∧ ((∀ i, i < target + 5 → steps i = steps2 i) →
          navigate_to_page_robust target steps = navigate_to_page_robust target steps2)
      ∧ ((∀ i, steps i = NavStep.advanced) → navigate_to_page_robust target steps = true)
      ∧ (∀ k, 1 < target → k < target + 5 →
          (∀ i, i < k → (steps i = NavStep.verifyFail ∨ steps i = NavStep.advanced)) →
          (steps k = NavStep.noButton ∨ steps k = NavStep.clickError) →
          1 + advCount steps 0 k < target →
          navigate_to_page_robust target steps = false)
      ∧ (1 < target →
          (∀ i, i < target + 5 →
            (steps i = NavStep.verifyFail ∨ steps i = NavStep.advanced)) →
          1 + advCount steps 0 (target + 4) < target →
          navigate_to_page_robust target steps = false)
      ∧ (∀ fuel attempt current, target ≤ current → 0 < fuel →
          navLoop steps fuel attempt current target = true) := by
  intro target steps steps2
  refine ⟨fun h1 => by simp [navigate_to_page_robust, h1], ?_, ?_, ?_, ?_,
    fun fuel attempt current h1 h2 =>
      navLoop_true_of_reached steps fuel attempt current target h1 h2⟩
  · intro hagree
    unfold navigate_to_page_robust
    by_cases h1 : target = 1
    · simp [h1]
    · by_cases h2 : 1 < target
      · simp only [h1, if_false, h2, if_true, if_neg h1, if_pos h2]
        exact navLoop_congr steps steps2 (target + 5) 0 1 target
          (fun i hi => by simpa using hagree i hi)
      · simp [h1, h2]
  · intro hadv
    unfold navigate_to_page_robust
    by_cases h1 : target = 1
    · simp [h1]
    · by_cases h2 : 1 < target
      · simp only [if_neg h1, if_pos h2]
        exact navLoop_all_advanced steps hadv (target + 5) 0 1 target (by omega) (by omega)
      · simp [h1, h2]
  · intro k h2 hk hwin habort hlt
    unfold navigate_to_page_robust
    rw [if_neg (by omega : target ≠ 1), if_pos h2]
    exact navLoop_abort steps k (target + 5) 0 1 target
      (fun i hi => by simpa using hwin i hi) (by simpa using habort) hlt hk
  · intro h2 hwin hlt
    unfold navigate_to_page_robust
    rw [if_neg (by omega : target ≠ 1), if_pos h2]
    exact navLoop_exhaust steps (target + 5) 0 1 target
      (fun i hi => by simpa using hwin i hi) hlt

/-- C9 witness: the theorem evaluated at concrete targets and schedules:
target 1 succeeds at once; target 4 succeeds under verified advances; it
fails when the advance control is gone at the first attempt, when the
click errors at the first attempt, and when every attempt of the budget
passes without a verified advance; a loop entered at or past its target
answers true immediately; and the result only depends on the schedule
inside the attempt budget. -/
theorem claim_C9_navigate_robust_witness :
    navigate_to_page_robust 1 (fun _ => NavStep.noButton) = true
    ∧ navigate_to_page_robust 4 (fun _ => NavStep.advanced) = true
    ∧ navigate_to_page_robust 4 (fun _ => NavStep.noButton) = false
    ∧ navigate_to_page_robust 4 (fun _ => NavStep.clickError) = false
    ∧ navigate_to_page_robust 4 (fun _ => NavStep.verifyFail) = false
    ∧ navLoop (fun _ => NavStep.noButton) 3 0 7 5 = true
    ∧ navigate_to_page_robust 4 (fun i => if i < 9 then NavStep.advanced else NavStep.noButton)
        = navigate_to_page_robust 4 (fun _ => NavStep.advanced) := by
  refine ⟨(claim_C9_navigate_robust 1 (fun _ => NavStep.noButton) (fun _ => NavStep.noButton)).1 rfl,
    (claim_C9_navigate_robust 4 (fun _ => NavStep.advanced) (fun _ => NavStep.advanced)).2.2.1
      (fun i => rfl),
    (claim_C9_navigate_robust 4 (fun _ => NavStep.noButton) (fun _ => NavStep.noButton)).2.2.2.1
      0 (by omega) (by omega) (fun i hi => absurd hi (Nat.not_lt_zero i)) (Or.inl rfl)
      (by decide),
    (claim_C9_navigate_robust 4 (fun _ => NavStep.clickError) (fun _ => NavStep.clickError)).2.2.2.1
      0 (by omega) (by omega) (fun i hi => absurd hi (Nat.not_lt_zero i)) (Or.inr rfl)
      (by decide),
    (claim_C9_navigate_robust 4 (fun _ => NavStep.verifyFail) (fun _ => NavStep.verifyFail)).2.2.2.2.1
      (by omega) (fun i _ => Or.inl rfl) (by decide),
    (claim_C9_navigate_robust 5 (fun _ => NavStep.noButton) (fun _ => NavStep.noButton)).2.2.2.2.2
      3 0 7 (by omega) (by omega),
    (claim_C9_navigate_robust 4 (fun i => if i < 9 then NavStep.advanced else NavStep.noButton)
        (fun _ => NavStep.advanced)).2.1
      (fun i hi => by
        have h9 : i < 9 := by omega
        simp [h9])⟩

lemma process_school_data_stats (raw : RawSchool) (s : ProcessingStats) :
    (process_school_data raw s).2
      = (if raw.wellFormed then s.update_success else s.update_error) := by
  unfold process_school_data RawSchool.wellFormed
  cases hc : raw.classification with
  | none => simp
  | some ct =>
    cases hn : raw.name with
    | none => simp
    | some nm =>
      cases hu : raw.detail_url with
      | none => simp
      | some url => simp

lemma process_school_data_status (raw : RawSchool) (s : ProcessingStats) :
    (process_school_data raw s).1.status
      = (if raw.wellFormed then ProcessingStatus.SUCCESS else ProcessingStatus.ERROR) := by
  unfold process_school_data RawSchool.wellFormed
  cases hc : raw.classification with
  | none => simp
  | some ct =>
    cases hn : raw.name with
    | none => simp
    | some nm =>
      cases hu : raw.detail_url with
      | none => simp
      | some url => simp

lemma process_school_data_total (raw : RawSchool) (s : ProcessingStats) :
    (process_school_data raw s).2.total_processed = s.total_processed + 1 := by
  rw [process_school_data_stats]
  by_cases h : raw.wellFormed = true <;>
    simp [h, ProcessingStats.update_success, ProcessingStats.update_error]

lemma process_batch_records_length (raws : List RawSchool) (s : ProcessingStats) :
    (process_batch_records raws s).1.length = raws.length := by
  induction raws generalizing s with
  | nil => rfl
  | cons raw rest ih =>
    simp [process_batch_records, ih]

lemma process_batch_records_total (raws : List RawSchool) (s : ProcessingStats) :
    (process_batch_records raws s).2.total_processed = s.total_processed + raws.length := by
  induction raws generalizing s with
  | nil => rfl
  | cons raw rest ih =>
    simp only [process_batch_records, ih, process_school_data_total, List.length_cons]
    omega

lemma process_page_parallel_length (results : List FetchResult) :
    (process_page_parallel results).length = results.countP FetchResult.isOk := by
  induction results with
  | nil => rfl
  | cons r rest ih =>
    cases r <;> simp [process_page_parallel, FetchResult.isOk, List.countP_cons] at ih ⊢ <;>
      omega

/-- C1 counterexample: a page with three attempted references of which
two return dicts and one exhausts its retries (the exception lands in
the gather results).  The pipeline persists only 2 records, both
SUCCESS, and the stats count total 2 with 0 errors: the claimed 3
records (2 SUCCESS + 1 ERROR) and total_attempted 3 are refuted. -/
theorem claim_C1_counterexample :
    (process_batch_records
        (process_page_parallel
          [FetchResult.ok { name := some "ESCOLA A", classification := some "PEI", detail_url := some "/Home/DetalhesEscola/1" },
           FetchResult.ok { name := some "ESCOLA B", classification := some "EE", detail_url := some "/Home/DetalhesEscola/2" },
           FetchResult.exn "RetryError raised TimeoutError"])
        initStats).1.length = 2
    ∧ (process_batch_records
        (process_page_parallel
          [FetchResult.ok { name := some "ESCOLA A", classification := some "PEI", detail_url := some "/Home/DetalhesEscola/1" },
           FetchResult.ok { name := some "ESCOLA B", classification := some "EE", detail_url := some "/Home/DetalhesEscola/2" },
           FetchResult.exn "RetryError raised TimeoutError"])
        initStats).2
        = { total_processed := 2, successful := 2, errors := 0 }
    ∧ ¬ ((process_batch_records
          (process_page_parallel
            [FetchResult.ok { name := some "ESCOLA A", classification := some "PEI", detail_url := some "/Home/DetalhesEscola/1" },
             FetchResult.ok { name := some "ESCOLA B", classification := some "EE", detail_url := some "/Home/DetalhesEscola/2" },
             FetchResult.exn "RetryError raised TimeoutError"])
          initStats).1.length = 3) := by
  refine ⟨by decide, by decide, by decide⟩

/-- C1 amended: every gathered dict result yields exactly one record and
one stats update (SUCCESS exactly when the dict carries the required
keys, ERROR otherwise), but a reference whose detail fetch exhausts its
retries surfaces as an exception in the gather results and is only
logged by process_page_parallel: it yields zero records and no stats
update, so the records and the attempted total count only the dict
results. -/
theorem claim_C1_record_per_reference :
    ∀ (results : List FetchResult) (stats : ProcessingStats),
      (process_batch_records (process_page_parallel results) stats).1.length
          = results.countP FetchResult.isOk
      ∧ (process_batch_records (process_page_parallel results) stats).2.total_processed
          = stats.total_processed + results.countP FetchResult.isOk
      ∧ (∀ (raw : RawSchool) (s : ProcessingStats),
          ((process_school_data raw s).1.status = ProcessingStatus.SUCCESS
              ↔ raw.wellFormed = true)
          ∧ ((process_school_data raw s).1.status = ProcessingStatus.ERROR
              ↔ raw.wellFormed = false)
          ∧ (process_school_data raw s).2
              = (if raw.wellFormed then s.update_success else s.update_error)) := by
  intro results stats
  refine ⟨?_, ?_, fun raw s => ⟨?_, ?_, process_school_data_stats raw s⟩⟩
  · rw [process_batch_records_length, process_page_parallel_length]
  · rw [process_batch_records_total, process_page_parallel_length]
  · rw [process_school_data_status]
    by_cases h : raw.wellFormed = true <;> simp [h]
  · rw [process_school_data_status]
    by_cases h : raw.wellFormed = true <;> simp [h]

lemma succ_mul_eq (i b : Nat) : (i + 1) * b = i * b + b := by ring

lemma lt_div_succ_mul (a b : Nat) (hb : 0 < b) : a < (a / b + 1) * b := by
  have h1 : a / b * b + a % b = a := Nat.div_add_mod' a b
  have h2 : a % b < b := Nat.mod_lt a hb
  calc a = a / b * b + a % b := h1.symm
    _ < a / b * b + b := by omega
    _ = (a / b + 1) * b := by ring

lemma batchCount_eq (t b : Nat) (ht : 1 ≤ t) (hb : 1 ≤ b) :
    batchCount t b = (t - 1) / b + 1 := by
  unfold batchCount
  have h : t + b - 1 = (t - 1) + b := by omega
  rw [h, Nat.add_div_right _ hb]

lemma create_batches_length (t b : Nat) :
    (create_batches t b).length = batchCount t b := by
  simp [create_batches]

lemma create_batches_get (t b i : Nat) (hi : i < (create_batches t b).length) :
    (create_batches t b).get ⟨i, hi⟩ =
      { start_page := 1 + i * b
        end_page := min (1 + i * b + b - 1) t
        batch_name := batchName (i + 1)
        max_concurrent := 12
        retry_attempts := 3
        delay_between_requests := (0.4 : ℚ)
        delay_between_pages := (1.5 : ℚ) } := by
  simp [create_batches, List.get_eq_getElem]

lemma lt_batchCount_iff (t b i : Nat) (ht : 1 ≤ t) (hb : 1 ≤ b) :
    i < batchCount t b ↔ i * b ≤ t - 1 := by
  rw [batchCount_eq t b ht hb, Nat.lt_succ_iff, Nat.le_div_iff_mul_le hb]

/-- C3: for total_pages ≥ 1 and batch_size ≥ 1, create_batches returns
batchCount many plans; the i-th plan spans [1 + i * batch_size,
min(1 + i * batch_size + batch_size - 1, total_pages)] and is named
BATCH_{i+1} zero-padded to three digits; consecutive plans are
contiguous; every page of [1, total_pages] lies in some plan and no
page lies in two distinct plans.  The function is pure in its two
arguments, so this also gives determinism. -/
theorem claim_C3_create_batches :
    ∀ total batch : Nat, 1 ≤ total → 1 ≤ batch →
      ((create_batches total batch).length = batchCount total batch)
      ∧ (∀ i : Nat, ∀ hi : i < (create_batches total batch).length,
          ((create_batches total batch).get ⟨i, hi⟩).start_page = 1 + i * batch
          ∧ ((create_batches total batch).get ⟨i, hi⟩).end_page
              = min (1 + i * batch + batch - 1) total
          ∧ ((create_batches total batch).get ⟨i, hi⟩).batch_name = batchName (i + 1))
      ∧ (∀ i : Nat, ∀ hi2 : i + 1 < (create_batches total batch).length,
          ((create_batches total batch).get ⟨i + 1, hi2⟩).start_page
            = ((create_batches total batch).get
                ⟨i, Nat.lt_of_succ_lt hi2⟩).end_page + 1)
      ∧ (∀ p : Nat, (1 ≤ p ∧ p ≤ total) ↔
          ∃ i : Nat, ∃ hi : i < (create_batches total batch).length,
            ((create_batches total batch).get ⟨i, hi⟩).start_page ≤ p
            ∧ p ≤ ((create_batches total batch).get ⟨i, hi⟩).end_page)
      ∧ (∀ p i j : Nat, ∀ hi : i < (create_batches total batch).length,
          ∀ hj : j < (create_batches total batch).length,
          ((create_batches total batch).get ⟨i, hi⟩).start_page ≤ p
          → p ≤ ((create_batches total batch).get ⟨i, hi⟩).end_page
          → ((create_batches total batch).get ⟨j, hj⟩).start_page ≤ p
          → p ≤ ((create_batches total batch).get ⟨j, hj⟩).end_page
          → i = j) := by
  intro t b ht hb
  have hlen := create_batches_length t b
  refine ⟨hlen, ?_, ?_, ?_, ?_⟩
  · intro i hi
    rw [create_batches_get]
    exact ⟨rfl, rfl, rfl⟩
  · intro i hi2
    have hcnt : i + 1 < batchCount t b := by rw [← hlen]; exact hi2
    have h1 : (i + 1) * b ≤ t - 1 := (lt_batchCount_iff t b (i + 1) ht hb).mp hcnt
    rw [succ_mul_eq] at h1
    have hle : i * b + b ≤ t := Nat.le_trans h1 (Nat.sub_le t 1)
    have hmin : min (1 + i * b + b - 1) t = i * b + b := by
      have harith : 1 + i * b + b - 1 = i * b + b := by omega
      rw [harith]
      exact Nat.min_eq_left hle
    simp only [create_batches_get]
    rw [hmin, succ_mul_eq]
    omega
  · intro p
    constructor
    · rintro ⟨hp1, hp2⟩
      refine ⟨(p - 1) / b, ?_, ?_⟩
      · rw [hlen, lt_batchCount_iff t b _ ht hb]
        calc (p - 1) / b * b ≤ p - 1 := Nat.div_mul_le_self _ _
          _ ≤ t - 1 := by omega
      · have hq1 : (p - 1) / b * b ≤ p - 1 := Nat.div_mul_le_self _ _
        have hq2 : p - 1 < (p - 1) / b * b + b := by
          have h := lt_div_succ_mul (p - 1) b hb
          rw [succ_mul_eq] at h
          exact h
        simp only [create_batches_get]
        constructor
        · omega
        · refine Nat.le_min.mpr ⟨?_, hp2⟩
          omega
    · rintro ⟨i, hi, hstart, hend⟩
      simp only [create_batches_get] at hstart hend
      constructor
      · omega
      · exact Nat.le_trans hend (Nat.min_le_right _ t)
  · intro p i j hi hj histart hiend hjstart hjend
    simp only [create_batches_get] at histart hiend hjstart hjend
    have hdiv : ∀ k : Nat, 1 + k * b ≤ p → p ≤ min (1 + k * b + b - 1) t →
        (p - 1) / b = k := by
      intro k hks hke
      have hke2 : p ≤ 1 + k * b + b - 1 := Nat.le_trans hke (Nat.min_le_left _ _)
      refine Nat.div_eq_of_lt_le ?_ ?_
      · omega
      · rw [succ_mul_eq]
        omega
    have hieq := hdiv i histart hiend
    have hjeq := hdiv j hjstart hjend
    omega

/-- C3 witness: the theorem instantiated at 7 pages in batches of 3:
the plan count and the coverage of page 5. -/
theorem claim_C3_create_batches_witness :
    ((create_batches 7 3).length = batchCount 7 3)
    ∧ ((1 ≤ 5 ∧ 5 ≤ 7) ↔
        ∃ i : Nat, ∃ hi : i < (create_batches 7 3).length,
          ((create_batches 7 3).get ⟨i, hi⟩).start_page ≤ 5
          ∧ 5 ≤ ((create_batches 7 3).get ⟨i, hi⟩).end_page) :=
  ⟨(claim_C3_create_batches 7 3 (by norm_num) (by norm_num)).1,
   (claim_C3_create_batches 7 3 (by norm_num) (by norm_num)).2.2.2.1 5⟩

end EDSP
